import Mathlib

/-!
Shallow embedding of the orchestration layer of `src/main.py`, a FastAPI
backend that downloads media from YouTube or Instagram via an external
extraction library (yt_dlp) and returns the artifact base64-encoded.

Python strings are embedded as Lean `String`; Python dicts with a fixed key
set are embedded as structures where an `Option` field distinguishes a key
that is present with value `None` from an absent key.  The filesystem
existence check `os.path.exists` is passed in as an explicit function
`fs : String → Bool`, and `os.getcwd()` as an explicit `cwd : String`.
The external extraction collaborator (`ydl.extract_info`) is passed in as an
oracle describing its outcome: success with metadata and a possibly written
artifact file, or a raised `DownloadError` / other exception, each possibly
leaving an artifact file on disk.  Since every artifact filename embeds the
request's fresh unique identifier, the on-disk state relevant to one request
is just the extension of that request's artifact file, if any:
`disk : Option String`.
-/

/-- Embedding of Python's substring test `needle in hay` on strings. -/
def strContains (hay needle : String) : Bool :=
  decide (needle.data <:+: hay.data)

/-- Embedding of Python's `str.lower()` (ASCII case folding). -/
def pyLower (s : String) : String :=
  String.mk (s.data.map Char.toLower)

/-- List form of Python's `str.strip()`: drop whitespace from both ends. -/
def pyStripList (l : List Char) : List Char :=
  ((l.dropWhile Char.isWhitespace).reverse.dropWhile Char.isWhitespace).reverse

/-- Embedding of Python's `str.strip()`. -/
def pyStrip (s : String) : String :=
  String.mk (pyStripList s.data)

/-- Embedding of Python's `str.capitalize()`: first character upper-cased,
the rest lower-cased. -/
def pyCapitalize (s : String) : String :=
  match s.data with
  | [] => ""
  | c :: rest => String.mk (c.toUpper :: rest.map Char.toLower)

/-- Embedding of `os.path.join` for a relative second component on a POSIX
filesystem, the only way the source uses it. -/
def os_path_join (a b : String) : String :=
  a ++ "/" ++ b

/-- Embedding of `os.path.splitext(s)[1].lstrip('.')`: the extension after
the final dot, or the empty string when there is no dot. -/
def ext_after_last_dot (s : String) : String :=
  if '.' ∈ s.data then String.mk ((s.data.reverse.takeWhile (fun c => c != '.')).reverse)
  else ""

/-- Alphabet of standard base64 (RFC 4648), as used by `base64.b64encode`. -/
def base64Alphabet : List Char :=
  "ABCDEFGHIJKLMNOPQRSTUVWXYZabcdefghijklmnopqrstuvwxyz0123456789+/".data

/-- Character for one 6-bit group. -/
def b64Char (n : Nat) : Char :=
  base64Alphabet.getD n 'A'

/-- Embedding of `base64.b64encode` on a byte list (each entry < 256). -/
def b64EncodeList : List Nat → List Char
  | [] => []
  | [a] => [b64Char (a / 4), b64Char (a % 4 * 16), '=', '=']
  | [a, b] => [b64Char (a / 4), b64Char (a % 4 * 16 + b / 16), b64Char (b % 16 * 4), '=']
  | a :: b :: c :: rest =>
      b64Char (a / 4) :: b64Char (a % 4 * 16 + b / 16) ::
        b64Char (b % 16 * 4 + c / 64) :: b64Char (c % 64) :: b64EncodeList rest

/-! Constants of `src/main.py`. -/

def TEMP_DIR : String := "temp_downloads"

def COOKIES_YOUTUBE : String := "cookies_youtube.txt"

def COOKIES_INSTAGRAM : String := "cookies_instagram.txt"

/-- Request model from `src/main.py` (`class DownloadRequest`): `format` is
optional with pydantic default `'mp4'`; `none` models a JSON `null`. -/
structure DownloadRequest where
  url : String
  format : Option String := some "mp4"
deriving Repr, DecidableEq

/-- Response model from `src/main.py` (`class DownloadResponse`). -/
structure DownloadResponse where
  status : String
  filename : String
  data : String
  message : String
deriving Repr, DecidableEq

/-- One entry of the `postprocessors` list in the yt_dlp options dict. -/
structure Postprocessor where
  key : String
  preferredcodec : String
  preferredquality : String
deriving Repr, DecidableEq

/-- The yt_dlp options dict built by the source.  A field of type
`Option _` set to `none` models an absent key; `cookiefile` is doubly
optional because the source first stores the key with value `None` and
later deletes it (`del ydl_opts["cookiefile"]`): `some none` is the key
present with value `None`, `none` is the key absent. -/
structure YdlOpts where
  format : String
  outtmpl : String
  cookiefile : Option (Option String)
  quiet : Bool
  no_warnings : Bool
  nocheckcertificate : Bool
  merge_output_format : Option String := none
  postprocessors : Option (List Postprocessor) := none
  http_headers : Option (List (String × String)) := none
deriving Repr, DecidableEq

/-- Embedding of `detect_platform` from `src/main.py`. -/
def detect_platform (url : String) : String :=
  let url_lower := pyLower url
  if strContains url_lower "instagram.com" || strContains url_lower "/reel/" ||
      strContains url_lower "/reels/" then
    "instagram"
  else if strContains url_lower "youtube.com" || strContains url_lower "youtu.be" then
    "youtube"
  else
    "unsupported"

/-- Embedding of `get_youtube_options` from `src/main.py`.  `fs` models
`os.path.exists` and `cwd` models `os.getcwd()`. -/
def get_youtube_options (output_template : String) (format_type : String)
    (fs : String → Bool) (cwd : String) : YdlOpts :=
  let cookie_file := os_path_join cwd COOKIES_YOUTUBE
  if format_type = "mp3" then
    { format := "bestaudio/best"
      outtmpl := output_template
      cookiefile := some (if fs cookie_file then some cookie_file else none)
      quiet := true
      no_warnings := true
      nocheckcertificate := true
      postprocessors := some [{ key := "FFmpegExtractAudio", preferredcodec := "mp3",
                                preferredquality := "192" }] }
  else
    { format := "bestvideo[ext=mp4]+bestaudio[ext=m4a]/bestvideo+bestaudio/best"
      merge_output_format := some "mp4"
      outtmpl := output_template
      cookiefile := some (if fs cookie_file then some cookie_file else none)
      quiet := true
      no_warnings := true
      nocheckcertificate := true }

/-- Embedding of `get_instagram_options` from `src/main.py`. -/
def get_instagram_options (output_template : String)
    (fs : String → Bool) (cwd : String) : YdlOpts :=
  let cookie_file := os_path_join cwd COOKIES_INSTAGRAM
  { format := "best[ext=mp4]/best"
    outtmpl := output_template
    cookiefile := some (if fs cookie_file then some cookie_file else none)
    quiet := true
    no_warnings := true
    nocheckcertificate := true
    http_headers := some [("User-Agent",
      "Mozilla/5.0 (Windows NT 10.0; Win64; x64) AppleWebKit/537.36 (KHTML, like Gecko) Chrome/120.0.0.0 Safari/537.36")] }

/-- Embedding of `find_downloaded_file` from `src/main.py`.  The glob over
`temp_dir/unique_id.*` is modelled by `disk`, the extension of this
request's artifact file when it exists. -/
def find_downloaded_file (temp_dir : String) (unique_id : String)
    (disk : Option String) : Option String :=
  disk.map fun e => os_path_join temp_dir (unique_id ++ "." ++ e)

/-- Embedding of `cleanup_file` from `src/main.py`, acting on the one-file
disk model: when `filepath` is a present path (the handler only ever passes
this request's artifact path, or Python `None` modelled as `none`), the
file is removed; otherwise the disk is unchanged. -/
def cleanup_file (filepath : Option String) (disk : Option String) : Option String :=
  if filepath.isSome then none else disk

/-- Embedding of the inline filename sanitisation in `download_media`:
keep alphanumerics, spaces, hyphens and underscores, strip, truncate to
100 characters. -/
def sanitize_title (title : String) : String :=
  let kept := title.data.filter fun c => c.isAlphanum || c == ' ' || c == '-' || c == '_'
  String.mk ((pyStripList kept).take 100)

/-- Embedding of lines 234-236 of `src/main.py`: delete the `cookiefile`
key when its stored value is `None`. -/
def finalize_opts (o : YdlOpts) : YdlOpts :=
  if o.cookiefile = some none then { o with cookiefile := none } else o

/-- Outcome of the external extraction collaborator (`ydl.extract_info`):
success carries the reported title metadata (`none` when the info dict has
no `title` key), the extension of the artifact file it wrote (`none` when
no file matching the output template exists afterwards) and the file's
bytes; the two failure constructors model a raised
`yt_dlp.utils.DownloadError` and any other exception, each recording the
extension of an artifact file left on disk at the time of the raise. -/
inductive ExtractOutcome where
  | ok (title : Option String) (writtenExt : Option String) (content : List Nat)
  | downloadError (msg : String) (writtenExt : Option String)
  | otherError (msg : String) (writtenExt : Option String)
deriving Repr, DecidableEq

/-- Result of one request: the HTTP response together with the trace facts
the specification talks about — whether the extraction collaborator was
invoked, the options it was invoked with, and the final disk state for this
request's unique identifier (`some ext` means a file
`temp_downloads/<unique_id>.<ext>` remains). -/
structure HandlerResult where
  response : DownloadResponse
  extractionInvoked : Bool
  optsUsed : Option YdlOpts
  finalDisk : Option String
deriving Repr, DecidableEq

/-- Embedding of the `download_media` handler from `src/main.py`.
`unique_id` stands for the generated `uuid.uuid4()` string and `extract`
for the extraction collaborator. -/
def download_media (fs : String → Bool) (cwd : String) (unique_id : String)
    (extract : YdlOpts → String → ExtractOutcome)
    (request : DownloadRequest) : HandlerResult :=
  let url := pyStrip request.url
  let format_type := match request.format with
    | none => "mp4"
    | some f => if f = "" then "mp4" else f
  if url = "" then
    { response :=
        { status := "error", filename := "", data := "", message := "URL is required" },
      extractionInvoked := false, optsUsed := none, finalDisk := none }
  else
    let platform := detect_platform url
    if platform = "unsupported" then
      { response :=
          { status := "error", filename := "", data := "",
            message := "Unsupported URL. Only YouTube and Instagram URLs are supported." },
        extractionInvoked := false, optsUsed := none, finalDisk := none }
    else
      let output_template := os_path_join TEMP_DIR (unique_id ++ ".%(ext)s")
      let ydl_opts :=
        finalize_opts (if platform = "instagram" then get_instagram_options output_template fs cwd
          else get_youtube_options output_template format_type fs cwd)
      match extract ydl_opts url with
      | ExtractOutcome.ok title writtenExt content =>
          let safe_title := sanitize_title (title.getD "download")
          let disk := writtenExt
          match find_downloaded_file TEMP_DIR unique_id disk with
          | none =>
              { response :=
                  { status := "error", filename := "", data := "",
                    message := "Download completed but file not found" },
                extractionInvoked := true, optsUsed := some ydl_opts, finalDisk := disk }
          | some downloaded_file =>
              let actual_ext := ext_after_last_dot downloaded_file
              let base64_data := String.mk (b64EncodeList content)
              let final_filename := safe_title ++ "." ++ actual_ext
              { response :=
                  { status := "success", filename := final_filename,
                    data := base64_data,
                    message := "Successfully downloaded from " ++ pyCapitalize platform },
                extractionInvoked := true, optsUsed := some ydl_opts,
                finalDisk := cleanup_file (some downloaded_file) disk }
      | ExtractOutcome.downloadError msg writtenExt =>
          let message :=
            if strContains msg "Private video" then
              "This video is private and cannot be downloaded"
            else if strContains msg "Video unavailable" then
              "This video is unavailable"
            else if strContains msg "Sign in" || strContains (pyLower msg) "login" then
              "Authentication required. Please ensure " ++
                (if platform = "instagram" then COOKIES_INSTAGRAM else COOKIES_YOUTUBE) ++
                " is properly configured."
            else
              "Download failed: " ++ msg
          { response :=
              { status := "error", filename := "", data := "", message := message },
            extractionInvoked := true, optsUsed := some ydl_opts,
            finalDisk := cleanup_file none writtenExt }
      | ExtractOutcome.otherError msg writtenExt =>
          { response :=
              { status := "error", filename := "", data := "",
                message := "An error occurred: " ++ msg },
            extractionInvoked := true, optsUsed := some ydl_opts,
            finalDisk := cleanup_file none writtenExt }

/-! Helper lemmas about the string embedding. -/

/-- Stripping whitespace from both ends yields an infix of the original list. -/
theorem pyStripList_inside (l : List Char) : pyStripList l <:+: l := by
  unfold pyStripList
  have h1 : l.dropWhile Char.isWhitespace <:+ l := List.dropWhile_suffix _
  have h2 : ((l.dropWhile Char.isWhitespace).reverse.dropWhile Char.isWhitespace).reverse <+:
      l.dropWhile Char.isWhitespace := by
    rw [← List.reverse_suffix, List.reverse_reverse]
    exact List.dropWhile_suffix _
  exact h2.isInfix.trans h1.isInfix

/-- A substring of the lower-cased, stripped URL is a substring of the
lower-cased URL. -/
theorem strContains_of_strip_lower (u m : String)
    (h : strContains (pyLower (pyStrip u)) m = true) :
    strContains (pyLower u) m = true := by
  simp only [strContains, decide_eq_true_eq] at h ⊢
  have hmap : (pyStripList u.data).map Char.toLower <:+: u.data.map Char.toLower :=
    List.IsInfix.map Char.toLower (pyStripList_inside u.data)
  exact List.IsInfix.trans h hmap

/-- Contrapositive form: a marker absent from the lower-cased URL is absent
from the lower-cased stripped URL. -/
theorem strContains_strip_false (u m : String)
    (h : strContains (pyLower u) m = false) :
    strContains (pyLower (pyStrip u)) m = false := by
  cases hc : strContains (pyLower (pyStrip u)) m
  · rfl
  · rw [strContains_of_strip_lower u m hc] at h
    exact absurd h (by simp)

/-- The options `download_media` hands to the extraction collaborator, as a
function of the request alone. -/
theorem optsUsed_eq (fs : String → Bool) (cwd unique_id : String)
    (extract : YdlOpts → String → ExtractOutcome) (request : DownloadRequest) :
    (download_media fs cwd unique_id extract request).optsUsed =
      if pyStrip request.url = "" then none
      else if detect_platform (pyStrip request.url) = "unsupported" then none
      else some (finalize_opts
        (if detect_platform (pyStrip request.url) = "instagram" then
          get_instagram_options (os_path_join TEMP_DIR (unique_id ++ ".%(ext)s")) fs cwd
        else
          get_youtube_options (os_path_join TEMP_DIR (unique_id ++ ".%(ext)s"))
            (match request.format with
              | none => "mp4"
              | some f => if f = "" then "mp4" else f) fs cwd)) := by
  unfold download_media
  by_cases h1 : pyStrip request.url = ""
  · simp [h1]
  · by_cases h2 : detect_platform (pyStrip request.url) = "unsupported"
    · simp [h1, h2]
    · simp only [h1, h2, if_false, if_true, ite_false, ite_true]
      cases extract (finalize_opts
          (if detect_platform (pyStrip request.url) = "instagram" then
            get_instagram_options (os_path_join TEMP_DIR (unique_id ++ ".%(ext)s")) fs cwd
          else
            get_youtube_options (os_path_join TEMP_DIR (unique_id ++ ".%(ext)s"))
              (match request.format with
                | none => "mp4"
                | some f => if f = "" then "mp4" else f) fs cwd)) (pyStrip request.url) with
      | ok title writtenExt content =>
          cases writtenExt <;> simp [find_downloaded_file]
      | downloadError msg writtenExt => simp
      | otherError msg writtenExt => simp

/-- finalize_opts only touches the cookiefile field. -/
theorem finalize_opts_postprocessors (o : YdlOpts) :
    (finalize_opts o).postprocessors = o.postprocessors := by
  unfold finalize_opts
  split <;> rfl

/-- finalize_opts preserves the format selector. -/
theorem finalize_opts_format (o : YdlOpts) :
    (finalize_opts o).format = o.format := by
  unfold finalize_opts
  split <;> rfl

/-- Claim C4: every URL that case-insensitively contains "youtube.com" or
"youtu.be" and contains none of "instagram.com", "/reel/", "/reels/" is
classified by detect_platform as "youtube". -/
theorem C4_thm (url : String)
    (hyt : strContains (pyLower url) "youtube.com" = true ∨
      strContains (pyLower url) "youtu.be" = true)
    (hig1 : strContains (pyLower url) "instagram.com" = false)
    (hig2 : strContains (pyLower url) "/reel/" = false)
    (hig3 : strContains (pyLower url) "/reels/" = false) :
    detect_platform url = "youtube" := by
  unfold detect_platform
  rcases hyt with h | h <;> simp [hig1, hig2, hig3, h]

/-- Witness for C4 at a concrete mixed-case YouTube URL. -/
theorem C4_witness : detect_platform "https://www.YouTube.com/watch?v=abc" = "youtube" :=
  C4_thm "https://www.YouTube.com/watch?v=abc" (Or.inl (by decide)) (by decide)
    (by decide) (by decide)

/-- Claim C10: detection gives the Instagram markers priority — a URL that
case-insensitively contains both an Instagram marker and a YouTube marker is
classified as "instagram". -/
theorem C10_thm (url : String)
    (hig : strContains (pyLower url) "instagram.com" = true ∨
      strContains (pyLower url) "/reel/" = true ∨
      strContains (pyLower url) "/reels/" = true)
    (hyt : strContains (pyLower url) "youtube.com" = true ∨
      strContains (pyLower url) "youtu.be" = true) :
    detect_platform url = "instagram" := by
  unfold detect_platform
  rcases hig with h | h | h <;> simp [h]

/-- Witness for C10 at a URL carrying both a YouTube and an Instagram marker. -/
theorem C10_witness : detect_platform "https://www.youtube.com/reel/abc" = "instagram" :=
  C10_thm "https://www.youtube.com/reel/abc" (Or.inr (Or.inl (by decide)))
    (Or.inl (by decide))

/-- Claim C9: a request whose URL is empty after trimming is answered with
status "error" and message "URL is required", and the extraction
collaborator is never invoked. -/
theorem C9_thm (fs : String → Bool) (cwd unique_id : String)
    (extract : YdlOpts → String → ExtractOutcome) (request : DownloadRequest)
    (h : pyStrip request.url = "") :
    (download_media fs cwd unique_id extract request).response.status = "error" ∧
    (download_media fs cwd unique_id extract request).response.message = "URL is required" ∧
    (download_media fs cwd unique_id extract request).extractionInvoked = false := by
  unfold download_media
  simp [h]

/-- Witness for C9: a whitespace-only URL. -/
theorem C9_witness :
    (download_media (fun _ => false) "/srv" "id9"
        (fun _ _ => ExtractOutcome.otherError "unused" none)
        { url := "   ", format := some "mp4" }).response.status = "error" ∧
    (download_media (fun _ => false) "/srv" "id9"
        (fun _ _ => ExtractOutcome.otherError "unused" none)
        { url := "   ", format := some "mp4" }).response.message = "URL is required" ∧
    (download_media (fun _ => false) "/srv" "id9"
        (fun _ _ => ExtractOutcome.otherError "unused" none)
        { url := "   ", format := some "mp4" }).extractionInvoked = false :=
  C9_thm (fun _ => false) "/srv" "id9" (fun _ _ => ExtractOutcome.otherError "unused" none)
    { url := "   ", format := some "mp4" } (by decide)

/-- Claim C5: a non-empty URL containing none of the Instagram markers and
none of the YouTube markers is classified "unsupported", and the handler
answers with status "error" without invoking the extraction collaborator. -/
theorem C5_thm (fs : String → Bool) (cwd unique_id : String)
    (extract : YdlOpts → String → ExtractOutcome) (request : DownloadRequest)
    (hne : request.url ≠ "")
    (h1 : strContains (pyLower request.url) "instagram.com" = false)
    (h2 : strContains (pyLower request.url) "/reel/" = false)
    (h3 : strContains (pyLower request.url) "/reels/" = false)
    (h4 : strContains (pyLower request.url) "youtube.com" = false)
    (h5 : strContains (pyLower request.url) "youtu.be" = false) :
    detect_platform request.url = "unsupported" ∧
    (download_media fs cwd unique_id extract request).response.status = "error" ∧
    (download_media fs cwd unique_id extract request).extractionInvoked = false := by
  refine ⟨by unfold detect_platform; simp [h1, h2, h3, h4, h5], ?_⟩
  by_cases hurl : pyStrip request.url = ""
  · unfold download_media
    simp [hurl]
  · have hdet : detect_platform (pyStrip request.url) = "unsupported" := by
      unfold detect_platform
      simp [strContains_strip_false request.url _ h1,
        strContains_strip_false request.url _ h2,
        strContains_strip_false request.url _ h3,
        strContains_strip_false request.url _ h4,
        strContains_strip_false request.url _ h5]
    unfold download_media
    simp [hurl, hdet]

/-- Witness for C5 at a concrete unsupported URL. -/
theorem C5_witness :
    detect_platform "https://example.com/watch?v=abc" = "unsupported" ∧
    (download_media (fun _ => false) "/srv" "id5"
        (fun _ _ => ExtractOutcome.otherError "unused" none)
        { url := "https://example.com/watch?v=abc", format := some "mp4" }).response.status =
      "error" ∧
    (download_media (fun _ => false) "/srv" "id5"
        (fun _ _ => ExtractOutcome.otherError "unused" none)
        { url := "https://example.com/watch?v=abc", format := some "mp4" }).extractionInvoked =
      false :=
  C5_thm (fun _ => false) "/srv" "id5" (fun _ _ => ExtractOutcome.otherError "unused" none)
    { url := "https://example.com/watch?v=abc", format := some "mp4" }
    (by decide) (by decide) (by decide) (by decide) (by decide) (by decide)

/-- Claim C7: when the extraction collaborator raises a DownloadError whose
message contains "Private video", the handler answers with status "error"
and the private-video message rather than the generic prefix. -/
theorem C7_thm (fs : String → Bool) (cwd unique_id : String) (msg : String)
    (writtenExt : Option String) (request : DownloadRequest)
    (hmsg : strContains msg "Private video" = true)
    (hinv : (download_media fs cwd unique_id
        (fun _ _ => ExtractOutcome.downloadError msg writtenExt) request).extractionInvoked =
      true) :
    (download_media fs cwd unique_id
        (fun _ _ => ExtractOutcome.downloadError msg writtenExt) request).response.status =
      "error" ∧
    (download_media fs cwd unique_id
        (fun _ _ => ExtractOutcome.downloadError msg writtenExt) request).response.message =
      "This video is private and cannot be downloaded" := by
  unfold download_media at hinv ⊢
  by_cases h1 : pyStrip request.url = ""
  · simp [h1] at hinv
  · by_cases h2 : detect_platform (pyStrip request.url) = "unsupported"
    · simp [h1, h2] at hinv
    · simp [h1, h2, hmsg]

/-- Witness for C7: a private YouTube video. -/
theorem C7_witness :
    (download_media (fun _ => false) "/srv" "id7"
        (fun _ _ => ExtractOutcome.downloadError "ERROR: Private video. Sign in if you have access" none)
        { url := "https://youtu.be/abc", format := some "mp4" }).response.status = "error" ∧
    (download_media (fun _ => false) "/srv" "id7"
        (fun _ _ => ExtractOutcome.downloadError "ERROR: Private video. Sign in if you have access" none)
        { url := "https://youtu.be/abc", format := some "mp4" }).response.message =
      "This video is private and cannot be downloaded" :=
  C7_thm (fun _ => false) "/srv" "id7" "ERROR: Private video. Sign in if you have access" none
    { url := "https://youtu.be/abc", format := some "mp4" } (by decide) (by decide)

/-- Claim C8: the sanitised title computed by the handler contains only
alphanumeric characters, spaces, hyphens and underscores, and has length at
most 100. -/
theorem C8_thm (title : String) (c : Char) :
    (c ∈ (sanitize_title title).data →
      (c.isAlphanum || c == ' ' || c == '-' || c == '_') = true) ∧
    (sanitize_title title).length ≤ 100 := by
  constructor
  · intro hc
    have hc2 : c ∈ (pyStripList (title.data.filter
        (fun c => c.isAlphanum || c == ' ' || c == '-' || c == '_'))).take 100 := hc
    have hc3 := List.take_subset _ _ hc2
    have hc4 := (pyStripList_inside _).subset hc3
    exact (List.mem_filter.mp hc4).2
  · show ((pyStripList _).take 100).length ≤ 100
    rw [List.length_take]
    exact min_le_left _ _

/-- Witness for C8 at a concrete messy title. -/
theorem C8_witness :
    (('o'.isAlphanum || 'o' == ' ' || 'o' == '-' || 'o' == '_') = true) ∧
    (sanitize_title "  Cool Video: 100% legal!  ").length ≤ 100 :=
  ⟨(C8_thm "  Cool Video: 100% legal!  " 'o').1 (by decide),
    (C8_thm "  Cool Video: 100% legal!  " 'o').2⟩

/-- Claim C2: for a URL detected as Instagram the handler passes the
Instagram options to the extraction collaborator — their format selector is
"best[ext=mp4]/best" — and the requested format is not consulted: changing
it leaves the options unchanged. -/
theorem C2_thm (fs : String → Bool) (cwd unique_id : String)
    (extract : YdlOpts → String → ExtractOutcome) (request : DownloadRequest)
    (h : detect_platform (pyStrip request.url) = "instagram") :
    (download_media fs cwd unique_id extract request).optsUsed =
      some (finalize_opts (get_instagram_options
        (os_path_join TEMP_DIR (unique_id ++ ".%(ext)s")) fs cwd)) ∧
    (finalize_opts (get_instagram_options
        (os_path_join TEMP_DIR (unique_id ++ ".%(ext)s")) fs cwd)).format =
      "best[ext=mp4]/best" ∧
    (∀ f, (download_media fs cwd unique_id extract { request with format := f }).optsUsed =
      (download_media fs cwd unique_id extract request).optsUsed) := by
  have hne : pyStrip request.url ≠ "" := by
    intro he
    rw [he] at h
    exact absurd h (by decide)
  have hns : detect_platform (pyStrip request.url) ≠ "unsupported" := by
    intro hcon
    rw [h] at hcon
    exact absurd hcon (by decide)
  refine ⟨?_, ?_, ?_⟩
  · rw [optsUsed_eq]
    simp [hne, hns, h]
  · rw [finalize_opts_format]
    rfl
  · intro f
    rw [optsUsed_eq, optsUsed_eq]
    simp [hne, hns, h]

/-- Witness for C2 at the Instagram reel URL of the specification. -/
theorem C2_witness :
    (download_media (fun _ => false) "/srv" "id2" (fun _ _ => ExtractOutcome.ok none none [])
        { url := "https://www.instagram.com/reel/XYZ/", format := some "mp4" }).optsUsed =
      some (finalize_opts (get_instagram_options
        (os_path_join TEMP_DIR ("id2" ++ ".%(ext)s")) (fun _ => false) "/srv")) ∧
    (download_media (fun _ => false) "/srv" "id2" (fun _ _ => ExtractOutcome.ok none none [])
        { url := "https://www.instagram.com/reel/XYZ/", format := some "mp3" }).optsUsed =
      (download_media (fun _ => false) "/srv" "id2" (fun _ _ => ExtractOutcome.ok none none [])
        { url := "https://www.instagram.com/reel/XYZ/", format := some "mp4" }).optsUsed := by
  have hc := C2_thm (fun _ => false) "/srv" "id2" (fun _ _ => ExtractOutcome.ok none none [])
    { url := "https://www.instagram.com/reel/XYZ/", format := some "mp4" } (by decide)
  exact ⟨hc.1, hc.2.2 (some "mp3")⟩

/-- Claim C6: after the handler's cookie-key deletion step, the options carry
no cookiefile key at all when the platform's cookie file does not exist on
disk, and carry its path when it does — for YouTube (any format) and for
Instagram. -/
theorem C6_thm (output_template format_type : String) (fs : String → Bool) (cwd : String) :
    (fs (os_path_join cwd COOKIES_YOUTUBE) = false →
      (finalize_opts (get_youtube_options output_template format_type fs cwd)).cookiefile =
        none) ∧
    (fs (os_path_join cwd COOKIES_YOUTUBE) = true →
      (finalize_opts (get_youtube_options output_template format_type fs cwd)).cookiefile =
        some (some (os_path_join cwd COOKIES_YOUTUBE))) ∧
    (fs (os_path_join cwd COOKIES_INSTAGRAM) = false →
      (finalize_opts (get_instagram_options output_template fs cwd)).cookiefile = none) ∧
    (fs (os_path_join cwd COOKIES_INSTAGRAM) = true →
      (finalize_opts (get_instagram_options output_template fs cwd)).cookiefile =
        some (some (os_path_join cwd COOKIES_INSTAGRAM))) := by
  unfold get_youtube_options get_instagram_options finalize_opts
  by_cases hy : fs (os_path_join cwd COOKIES_YOUTUBE) <;>
    by_cases hi : fs (os_path_join cwd COOKIES_INSTAGRAM) <;>
      by_cases hf : format_type = "mp3" <;>
        simp [hy, hi, hf]

/-- Witness for C6: a filesystem holding only the Instagram cookie file. -/
theorem C6_witness :
    (finalize_opts (get_youtube_options "tmpl" "mp4"
        (fun p => p == os_path_join "/srv" COOKIES_INSTAGRAM) "/srv")).cookiefile = none ∧
    (finalize_opts (get_instagram_options "tmpl"
        (fun p => p == os_path_join "/srv" COOKIES_INSTAGRAM) "/srv")).cookiefile =
      some (some (os_path_join "/srv" COOKIES_INSTAGRAM)) :=
  ⟨(C6_thm "tmpl" "mp4" (fun p => p == os_path_join "/srv" COOKIES_INSTAGRAM) "/srv").1
      (by decide),
    (C6_thm "tmpl" "mp4" (fun p => p == os_path_join "/srv" COOKIES_INSTAGRAM) "/srv").2.2.2
      (by decide)⟩

/-- Claim C1 fails as stated: this Instagram request with format "mp3"
reaches option building (optsUsed is present) yet the built options contain
no postprocessors key, hence no mp3 transcode spec. -/
theorem C1_counterexample :
    (download_media (fun _ => false) "/srv" "id1"
        (fun _ _ => ExtractOutcome.downloadError "boom" none)
        { url := "https://www.instagram.com/reel/XYZ/", format := some "mp3" }).optsUsed.isSome =
      true ∧
    ((download_media (fun _ => false) "/srv" "id1"
        (fun _ _ => ExtractOutcome.downloadError "boom" none)
        { url := "https://www.instagram.com/reel/XYZ/", format := some "mp3" }).optsUsed.bind
      YdlOpts.postprocessors) = none := by
  constructor <;> decide

/-- Claim C1 as amended: for a request with format "mp3" that reaches option
building, the options passed to the extraction collaborator carry the
FFmpegExtractAudio/mp3/"192" transcode spec exactly when the detected
platform is not Instagram; on Instagram the requested format is ignored and
no transcode spec is included. -/
theorem C1_amended_thm (fs : String → Bool) (cwd unique_id : String)
    (extract : YdlOpts → String → ExtractOutcome) (request : DownloadRequest) (o : YdlOpts)
    (hfmt : request.format = some "mp3")
    (ho : (download_media fs cwd unique_id extract request).optsUsed = some o) :
    (detect_platform (pyStrip request.url) ≠ "instagram" →
      o.postprocessors =
        some [{ key := "FFmpegExtractAudio", preferredcodec := "mp3", preferredquality := "192" }]) ∧
    (detect_platform (pyStrip request.url) = "instagram" →
      o.postprocessors = none) := by
  rw [optsUsed_eq] at ho
  by_cases h1 : pyStrip request.url = ""
  · simp [h1] at ho
  by_cases h2 : detect_platform (pyStrip request.url) = "unsupported"
  · simp [h1, h2] at ho
  simp only [h1, h2, if_false, ite_false, if_neg, Option.some.injEq] at ho
  constructor
  · intro hni
    rw [← ho, if_neg hni, finalize_opts_postprocessors, hfmt]
    rfl
  · intro hi
    rw [← ho, if_pos hi, finalize_opts_postprocessors]
    rfl

/-- Witness for the amended C1 at a concrete YouTube mp3 request. -/
theorem C1_amended_witness :
    (detect_platform (pyStrip "https://youtu.be/abc") ≠ "instagram" →
      (finalize_opts (get_youtube_options (os_path_join TEMP_DIR ("idA" ++ ".%(ext)s")) "mp3"
          (fun _ => false) "/srv")).postprocessors =
        some [{ key := "FFmpegExtractAudio", preferredcodec := "mp3", preferredquality := "192" }]) ∧
    (detect_platform (pyStrip "https://youtu.be/abc") = "instagram" →
      (finalize_opts (get_youtube_options (os_path_join TEMP_DIR ("idA" ++ ".%(ext)s")) "mp3"
          (fun _ => false) "/srv")).postprocessors = none) :=
  C1_amended_thm (fun _ => false) "/srv" "idA"
    (fun _ _ => ExtractOutcome.downloadError "x" none)
    { url := "https://youtu.be/abc", format := some "mp3" }
    (finalize_opts (get_youtube_options (os_path_join TEMP_DIR ("idA" ++ ".%(ext)s")) "mp3"
      (fun _ => false) "/srv"))
    rfl (by decide)

/-- Claim C3 fails on the code: a request that reached artifact creation
(the collaborator wrote the mp4 artifact, then raised a DownloadError)
returns an error response while the artifact file for this unique
identifier is still on disk — the except-handlers clean up only the located
file, which is still Python None at that point. -/
theorem C3_bug_thm :
    (download_media (fun _ => false) "/srv" "id3"
        (fun _ _ => ExtractOutcome.downloadError "ERROR: ffmpeg exited with code 1" (some "mp4"))
        { url := "https://youtu.be/abc", format := some "mp4" }).extractionInvoked = true ∧
    (download_media (fun _ => false) "/srv" "id3"
        (fun _ _ => ExtractOutcome.downloadError "ERROR: ffmpeg exited with code 1" (some "mp4"))
        { url := "https://youtu.be/abc", format := some "mp4" }).response.status = "error" ∧
    (download_media (fun _ => false) "/srv" "id3"
        (fun _ _ => ExtractOutcome.downloadError "ERROR: ffmpeg exited with code 1" (some "mp4"))
        { url := "https://youtu.be/abc", format := some "mp4" }).finalDisk = some "mp4" := by
  refine ⟨by decide, by decide, by decide⟩
